import Mathlib

/-!
# Verification of the BOSH server session state machine

Shallow embedding of `lib/bosh/session.js` (BOSHServerSession): a per-client
state machine mapping overlapping HTTP request/response exchanges onto one
logical socket.  Stateful JS is modelled as explicit state passing on a
`Session` record; every observable effect (an `emit`, an HTTP response
written, a timer armed or cancelled) is recorded as an `Ev` in an event
trace.  Timers are identified by freshly allocated numeric ids
(`nextTimerId`); `setTimeout`/`clearTimeout` become `setTimer`/`clearTimer`
events plus the `timer` field on the stored context.  `process.nextTick`
scheduling is kept at the source's call boundaries: `handleHTTP` only admits
and stores a request, and the scheduled `workInQueue` pass is invoked
separately; inside `workInQueue` the tick that runs `workOutQueue` then
`workInQueue` again is inlined as the recursive drain, which is the
quiescent (no interleaving) execution of the scheduled callbacks.
-/

/-- Observable effects of the session, in emission order.
`data`/`drain`/`sEnd`/`close`/`error`/`connect` are the `EventEmitter`
events forwarded downstream; `respond` is `respond(res, attrs, children)`
writing HTTP 200 with a `<body/>` envelope (the flag records
`attrs.type === 'terminate'`); `httpError` is the bare
`res.writeHead(status)` / `res.end(body)` used for superseded requests;
the timer constructors record `setTimeout`/`clearTimeout` calls. -/
inductive Ev where
  | data (s : String)
  | drain
  | sEnd
  | close
  | error (msg : String)
  | connect
  | respond (res : Nat) (terminate : Bool) (children : List String)
  | httpError (res : Nat) (status : Nat) (body : String)
  | setTimer (id rid : Nat)
  | clearTimer (id : Nat)
  | setConnTimer (id : Nat)
  | clearConnTimer (id : Nat)
  | warn (rid : Nat)
deriving DecidableEq, Repr

/-- One HTTP request context (the JS `opts` object): the parsed `<body/>`
attributes (`rid`, `sid`, `to`, `xmpp:restart`, `xmpp:version`, `type`),
the serialized child stanzas, the optional liveness timer armed by
`handleHTTP`, and `res`, an identifier for the HTTP response sink.
Absent XML attributes are `none`. -/
structure Ctx where
  rid : Nat
  sid : Option String := none
  toAttr : String := ""
  restart : Option String := none
  xmppv : String := ""
  typeAttr : Option String := none
  children : List String := []
  timer : Option Nat := none
  res : Nat
deriving DecidableEq, Repr

/-- Session state: `inQueue` is the JS object keyed by rid (association
list), `outQueue` the array of processed contexts holding open responses,
`stanzaQueue` the outbound backlog, `connectionTimeout` the armed 60 s idle
timer (by id), `nextTimerId` the allocator for timer ids. -/
structure Session where
  nextRid : Nat
  wait : Nat := 30
  hold : Nat := 1
  inQueue : List (Nat × Ctx) := []
  outQueue : List Ctx := []
  stanzaQueue : List String := []
  connectionTimeout : Option Nat := none
  nextTimerId : Nat := 0
deriving DecidableEq, Repr

/-- `this.inQueue[rid]` (with `hasOwnProperty` giving `some`/`none`). -/
def qLookup : List (Nat × Ctx) → Nat → Option Ctx
  | [], _ => none
  | (k, v) :: rest, r => if k == r then some v else qLookup rest r

/-- `delete this.inQueue[rid]`. -/
def qErase : List (Nat × Ctx) → Nat → List (Nat × Ctx)
  | [], _ => []
  | (k, v) :: rest, r => if k == r then rest else (k, v) :: qErase rest r

/-- `this.inQueue[rid] = opts` (replaces an existing key). -/
def qSet : List (Nat × Ctx) → Nat → Ctx → List (Nat × Ctx)
  | [], r, c => [(r, c)]
  | (k, v) :: rest, r, c => if k == r then (r, c) :: rest else (k, v) :: qSet rest r c

/-- JS truthiness of an optional attribute string: `undefined` and `""`
are falsy. -/
def falsy : Option String → Bool
  | none => true
  | some s => s == ""

/-- `Array.prototype.toString` on the serialized children (join with ","),
as produced by `stanza.root().children.toString()`: `root()` climbs the
parent links back to `bodyEl`, so the stringified value is the whole
children array comma-joined. -/
def joinChildren : List String → String
  | [] => ""
  | [s] => s
  | s :: rest => s ++ "," ++ joinChildren rest

/-- The stream header emitted on stream start (session.js line 178). -/
def streamOpenString (dest xmppv : String) : String :=
  "<stream:stream xmlns='jabber:client' xmlns:stream='http://etherx.jabber.org/streams' to='" ++ dest ++ "' version='" ++ xmppv ++ "'>"

/-- The stream header emitted on `xmpp:restart` (session.js line 185; note
the source has two spaces before `to=`). -/
def streamRestartString (dest xmppv : String) : String :=
  "<stream:stream xmlns='jabber:client' xmlns:stream='http://etherx.jabber.org/streams'  to='" ++ dest ++ "' version='" ++ xmppv ++ "'>"

/-- The `data` emissions of processing one ready request inside
`workInQueue` (lines 166-193): the synthetic stream open when the request
carries no restart flag and no sid (the `rid` attribute is a non-empty
string on every admitted request, hence truthy), the restart header when
`attrs['xmpp:restart'] == "true"`, then one `data` per child carrying
`stanza.root().children.toString()`. -/
def processEvents (c : Ctx) : List Ev :=
  (if falsy c.restart && falsy c.sid then
    [Ev.data "<?xml version='1.0' ?>",
     Ev.data (streamOpenString c.toAttr c.xmppv)]
  else []) ++
  (if c.restart == some "true" then
    [Ev.data (streamRestartString c.toAttr c.xmppv)]
  else []) ++
  c.children.map (fun _ => Ev.data (joinChildren c.children))

/-- `maySetConnectionTimeout` (lines 244-252): when `outQueue` is empty,
arm the 60 s session idle timer (overwriting any handle already stored,
as the source does). -/
def maySetConnectionTimeout (s : Session) : Session × List Ev :=
  if s.outQueue.length < 1 then
    ({ s with connectionTimeout := some s.nextTimerId,
              nextTimerId := s.nextTimerId + 1 },
     [Ev.setConnTimer s.nextTimerId])
  else (s, [])

/-- The idle-timer callback (lines 247-250): emit `error` then `close`. -/
def onConnTimeout (s : Session) : Session × List Ev :=
  (s, [Ev.error "Session timeout", Ev.close])

/-- `if (opts.timer) clearTimeout(opts.timer)` (lines 208, 233-236): the
`clearTimeout` call recorded for a context, when it has an armed timer. -/
def timerClearEvs (c : Ctx) : List Ev :=
  match c.timer with
  | some t => [Ev.clearTimer t]
  | none => []

/-- `workOutQueue` (lines 216-242): with an empty `stanzaQueue` and a held
slot, emit `drain`; with no held slot, do nothing; otherwise take the whole
`stanzaQueue` as one batch, shift the oldest context, clear its timer if
set, respond with the batch, and maybe re-arm the idle timer. -/
def workOutQueue (s : Session) : Session × List Ev :=
  if s.stanzaQueue.length < 1 && s.outQueue.length > 0 then
    (s, [Ev.drain])
  else if s.outQueue.length < 1 then
    (s, [])
  else
    match s.outQueue with
    | [] => (s, [])
    | opts :: rest =>
      let stanzas := s.stanzaQueue
      let s1 := { s with stanzaQueue := [], outQueue := rest }
      let r2 := maySetConnectionTimeout s1
      (r2.1, timerClearEvs opts ++ [Ev.respond opts.res false stanzas] ++ r2.2)

/-- The admission tail of `handleHTTP` (lines 135-149): clear the idle
timer if armed, arm a `wait`-second liveness timer on the request, store it
in `inQueue` keyed by rid (the scheduled `workInQueue` pass is a separate
call). -/
def admitCtx (s : Session) (opts : Ctx) : Session × List Ev :=
  let r1 : Session × List Ev := match s.connectionTimeout with
    | some t => ({ s with connectionTimeout := none }, [Ev.clearConnTimer t])
    | none => (s, [])
  let tid := r1.1.nextTimerId
  ({ r1.1 with nextTimerId := tid + 1,
               inQueue := qSet r1.1.inQueue opts.rid { opts with timer := some tid } },
   r1.2 ++ [Ev.setTimer tid opts.rid])

/-- `handleHTTP` (lines 119-150): a duplicate rid rejects the previously
queued context with a plain-text 403 (falling through to admission, which
replaces it); a rid below `nextRid` is stale and goes straight onto
`outQueue`; otherwise the request is admitted. -/
def handleHTTP (s : Session) (opts : Ctx) : Session × List Ev :=
  match qLookup s.inQueue opts.rid with
  | some oldOpts =>
    let r := admitCtx s opts
    (r.1, Ev.httpError oldOpts.res 403 "Request replaced by same RID" :: r.2)
  | none =>
    if opts.rid < s.nextRid then
      ({ s with outQueue := s.outQueue ++ [opts] }, [])
    else
      admitCtx s opts

/-- The constructor `BOSHServerSession` (lines 33-75): seed `nextRid`,
`wait` (default 30), `hold` (default 1) from the creating request, arm the
idle timer, emit `connect`, and queue the creating request — with no
liveness timer — for the scheduled `workInQueue` pass. -/
def newSession (opts : Ctx) (waitAttr holdAttr : Option Nat) : Session × List Ev :=
  let base : Session :=
    { nextRid := opts.rid, wait := waitAttr.getD 30, hold := holdAttr.getD 1 }
  let r1 := maySetConnectionTimeout base
  ({ r1.1 with inQueue := qSet r1.1.inQueue opts.rid opts },
   r1.2 ++ [Ev.connect])

/-- `write` (lines 85-91): push the payload onto `stanzaQueue` and return
`this.outQueue.length > 0` (the scheduled `workOutQueue` is a separate
call). -/
def write (s : Session) (d : String) : Session × Bool :=
  ({ s with stanzaQueue := s.stanzaQueue ++ [d] }, decide (s.outQueue.length > 0))

/-- `pause` (line 97): empty body. -/
def pause (s : Session) : Session × List Ev := (s, [])

/-- `resume` (line 98): empty body. -/
def resume (s : Session) : Session × List Ev := (s, [])

/-- `end` (line 99): empty body. -/
def sessionEnd (s : Session) : Session × List Ev := (s, [])

/-- `onReqTimeout` (lines 254-272): look the rid up in `inQueue` first,
else scan `outQueue` for the first context with that rid and splice it out;
respond to the found context with an empty body, or warn if none. -/
def onReqTimeout (s : Session) (rid : Nat) : Session × List Ev :=
  match qLookup s.inQueue rid with
  | some opts =>
    ({ s with inQueue := qErase s.inQueue rid }, [Ev.respond opts.res false []])
  | none =>
    let i := s.outQueue.findIdx (fun c => c.rid == rid)
    if h : i < s.outQueue.length then
      ({ s with outQueue := s.outQueue.eraseIdx i },
       [Ev.respond (s.outQueue.get ⟨i, h⟩).res false []])
    else
      (s, [Ev.warn rid])

/-- One pass of the `workInQueue` loop body, bounded by explicit fuel so
the recursion is structural (each iteration removes the `nextRid` entry
from `inQueue` and `workOutQueue` never adds one, so
`s.inQueue.length + 1` units of fuel always suffice — see
`workInQueueFuel_extra`): while `inQueue` holds the context for `nextRid`,
remove it, bump `nextRid`, emit its `data` events, and push it onto
`outQueue`.  A non-terminate request schedules `workOutQueue` followed by
another `workInQueue` pass (inlined as the quiescent execution of those
ticks); a terminate request instead retires every context in `outQueue`
(itself included) with a terminate-flagged empty response, clearing armed
timers, empties `outQueue`, and runs `closeSocket` (`end` then `close`). -/
def workInQueueFuel : Nat → Session → Session × List Ev
  | 0, s => (s, [])
  | fuel + 1, s =>
    match qLookup s.inQueue s.nextRid with
    | none => (s, [])
    | some opts =>
      let s1 : Session := { s with inQueue := qErase s.inQueue s.nextRid,
                                   nextRid := s.nextRid + 1 }
      let evs := processEvents opts
      let s2 : Session := { s1 with outQueue := s1.outQueue ++ [opts] }
      if opts.typeAttr != some "terminate" then
        let r3 := workOutQueue s2
        let r4 := workInQueueFuel fuel r3.1
        (r4.1, evs ++ r3.2 ++ r4.2)
      else
        let flush := s2.outQueue.flatMap (fun c =>
          timerClearEvs c ++ [Ev.respond c.res true []])
        ({ s2 with outQueue := [] }, evs ++ flush ++ [Ev.sEnd, Ev.close])

/-- `workInQueue` (lines 152-214): run the loop with enough fuel to drain
every buffered request. -/
def workInQueue (s : Session) : Session × List Ev :=
  workInQueueFuel (s.inQueue.length + 1) s

/-- A follow-up request for sequence number `r` carrying one serialized
stanza payload `p`: it names the session's sid (so no synthetic stream
open is emitted for it), has no restart flag, and `resId` identifies its
response sink. -/
def mkReq (r : Nat) (p : String) (resId : Nat) : Ctx :=
  { rid := r, sid := some "S", children := [p], res := resId }

/-- A quiescent session waiting for sequence number `n`: empty queues, no
armed idle timer. -/
def readySession (n : Nat) : Session := { nextRid := n }

/-- Arrival of one request: `handleHTTP` followed by its scheduled
`workInQueue` tick. -/
def submit (s : Session) (c : Ctx) : Session × List Ev :=
  let r1 := handleHTTP s c
  let r2 := workInQueue r1.1
  (r2.1, r1.2 ++ r2.2)

/-- A sequence of request arrivals, each followed by its scheduled
`workInQueue` tick, with the traces concatenated. -/
def submitAll (s : Session) : List Ctx → Session × List Ev
  | [] => (s, [])
  | c :: rest =>
    let r1 := submit s c
    let r2 := submitAll r1.1 rest
    (r2.1, r1.2 ++ r2.2)

/-- The payload strings of the `data` events of a trace. -/
def dataOf (evs : List Ev) : List String :=
  evs.filterMap (fun e => match e with
    | Ev.data s => some s
    | _ => none)

/-- Whether an event is emitted downstream on the socket abstraction
(`data`, `drain`, `end`, `close`, `error`, `connect`), as opposed to HTTP
responses and timer bookkeeping. -/
def isDownstream : Ev → Bool
  | Ev.data _ => true
  | Ev.drain => true
  | Ev.sEnd => true
  | Ev.close => true
  | Ev.error _ => true
  | Ev.connect => true
  | _ => false

/-- The downstream-visible events of a trace. -/
def downstream (evs : List Ev) : List Ev := evs.filter isDownstream

/-- Whether an event arms a per-request liveness timer. -/
def isSetTimer : Ev → Bool
  | Ev.setTimer _ _ => true
  | _ => false

/-- Whether an event arms the 60 s session idle timer. -/
def isSetConnTimer : Ev → Bool
  | Ev.setConnTimer _ => true
  | _ => false

/-- The session-creating request of the concrete scenarios: rid 1, no sid
(it is the handshake), no children, and — as the constructor stores it —
no liveness timer. -/
def firstCtx : Ctx := { rid := 1, res := 0 }

/-- A context with an armed liveness timer (id 7) sitting in `inQueue`
under rid 5, about to be superseded. -/
def oldDup : Ctx := { rid := 5, timer := some 7, res := 10 }

/-- The second request for rid 5, superseding `oldDup`. -/
def newDup : Ctx := { rid := 5, res := 11 }

/-- A session whose `inQueue` holds `oldDup` under rid 5. -/
def dupState : Session := { nextRid := 1, inQueue := [(5, oldDup)], nextTimerId := 8 }

/-- A processed context with an armed liveness timer (id 4), holding the
only open response slot. -/
def heldCtx : Ctx := { rid := 2, timer := some 4, res := 9 }

/-- A session whose only held response slot is `heldCtx`, with no armed
idle timer. -/
def heldState : Session := { nextRid := 3, outQueue := [heldCtx], nextTimerId := 5 }

/-- A session holding two response slots and a two-payload backlog. -/
def batchState : Session :=
  { nextRid := 3, outQueue := [heldCtx, firstCtx], stanzaQueue := ["a", "b"] }

/-- A terminate-typed request for rid 2. -/
def termCtx : Ctx := { rid := 2, sid := some "S", typeAttr := some "terminate", res := 12 }

/-- A session about to process `termCtx` while `heldCtx` still holds a
response slot. -/
def termState : Session :=
  { nextRid := 2, inQueue := [(2, termCtx)], outQueue := [heldCtx] }

/-- A session with one held slot and a pending payload, about to deliver
and leave `outQueue` empty. -/
def drainState : Session :=
  { nextRid := 3, outQueue := [heldCtx], stanzaQueue := ["z"] }

/-- A request with the `xmpp:restart` flag set, ready to be processed. -/
def restartCtx : Ctx := { rid := 7, sid := some "S", restart := some "true", res := 13 }

/-- A session about to process `restartCtx`. -/
def restartState : Session := { nextRid := 7, inQueue := [(7, restartCtx)] }

/-- `workOutQueue` never touches the inbound ordering buffer. -/
theorem workOutQueue_inQueue (s : Session) : (workOutQueue s).1.inQueue = s.inQueue := by
  unfold workOutQueue maySetConnectionTimeout
  split
  · rfl
  · split
    · rfl
    · split
      · rfl
      · dsimp only
        split <;> rfl

/-- A successful lookup means erasing strictly shrinks the queue. -/
theorem qErase_length_lt (l : List (Nat × Ctx)) (r : Nat) (c : Ctx)
    (h : qLookup l r = some c) : (qErase l r).length < l.length := by
  induction l with
  | nil => simp [qLookup] at h
  | cons p rest ih =>
    obtain ⟨k, v⟩ := p
    by_cases hk : (k == r) = true
    · simp [qErase, hk]
    · simp only [qLookup, hk] at h
      simp only [qErase, hk, if_neg, Bool.false_eq_true, if_false, List.length_cons]
      exact Nat.succ_lt_succ (ih h)

/-- Setting a key makes it found, with the stored value. -/
theorem qLookup_qSet_self (l : List (Nat × Ctx)) (r : Nat) (c : Ctx) :
    qLookup (qSet l r c) r = some c := by
  induction l with
  | nil => simp [qSet, qLookup]
  | cons p rest ih =>
    obtain ⟨k, v⟩ := p
    by_cases hk : (k == r) = true
    · simp [qSet, hk, qLookup]
    · simp [qSet, hk, qLookup, ih]

/-- Any fuel beyond `inQueue.length` gives the same result: the fuel bound
in `workInQueue` is not a semantic truncation of the source's loop. -/
theorem workInQueueFuel_extra (fuel : Nat) (s : Session)
    (h : s.inQueue.length < fuel) :
    workInQueueFuel (fuel + 1) s = workInQueueFuel fuel s := by
  induction fuel generalizing s with
  | zero => exact absurd h (Nat.not_lt_zero _)
  | succ f ih =>
    rw [workInQueueFuel, workInQueueFuel]
    cases hq : qLookup s.inQueue s.nextRid with
    | none => rfl
    | some opts =>
      dsimp only
      split
      · rw [ih]
        rw [workOutQueue_inQueue]
        dsimp only
        have := qErase_length_lt s.inQueue s.nextRid opts hq
        omega
      · rfl

/-- C10: `pause()`, `resume()` and `end()` have empty bodies: they leave
every field of the session state unchanged and emit no events; in
particular `end()` neither terminates the session nor completes any held
response. -/
theorem C10_socket_methods_are_noops (s : Session) :
    pause s = (s, []) ∧ resume s = (s, []) ∧ sessionEnd s = (s, []) :=
  ⟨rfl, rfl, rfl⟩

/-- C5 counterexample: with no held response slot, `write` returns `false`
even though the freshly appended payload is an undelivered backlog after
the call — so "returns true iff a backlog exists after the call" is false
on the code. -/
theorem C5_counterexample :
    (write (readySession 2) "x").2 = false ∧
    (write (readySession 2) "x").1.stanzaQueue ≠ [] := by
  decide

/-- C5 (amended): `write` appends the payload to `stanzaQueue` and returns
`true` iff at least one held response slot exists (`outQueue` non-empty) at
the time of the call — i.e. iff the payload will be flushed on the next
scheduling turn rather than remain backlogged. -/
theorem C5_write_returns_slot_available (s : Session) (d : String) :
    (write s d).1.stanzaQueue = s.stanzaQueue ++ [d] ∧
    ((write s d).2 = true ↔ s.outQueue ≠ []) := by
  unfold write
  refine ⟨rfl, ?_⟩
  simp [List.length_pos]

/-- C3: when `inQueue` already holds a context for the incoming sequence
number, the previous context's response sink is completed with HTTP 403
and the plain-text body "Request replaced by same RID" (the first event of
the trace), and the new request — with a fresh liveness timer — replaces
it as the context stored in `inQueue` for that sequence number. -/
theorem C3_duplicate_rid_supersedes (s : Session) (cOld cNew : Ctx)
    (h : qLookup s.inQueue cNew.rid = some cOld) :
    (handleHTTP s cNew).2.head? =
      some (Ev.httpError cOld.res 403 "Request replaced by same RID") ∧
    qLookup (handleHTTP s cNew).1.inQueue cNew.rid =
      some { cNew with timer := some s.nextTimerId } := by
  unfold handleHTTP admitCtx
  rw [h]
  cases hct : s.connectionTimeout <;> simp [qLookup_qSet_self]

/-- C3 witness: the duplicate-rejection theorem applied to the concrete
duplicate scenario. -/
theorem C3_witness :
    qLookup dupState.inQueue newDup.rid = some oldDup ∧
    ((handleHTTP dupState newDup).2.head? =
      some (Ev.httpError oldDup.res 403 "Request replaced by same RID") ∧
    qLookup (handleHTTP dupState newDup).1.inQueue newDup.rid =
      some { newDup with timer := some dupState.nextTimerId }) :=
  ⟨by decide, C3_duplicate_rid_supersedes dupState oldDup newDup (by decide)⟩

/-- C4: whenever `workOutQueue` runs with both `stanzaQueue` and `outQueue`
non-empty, it takes the entire current `stanzaQueue` (leaving it empty),
shifts exactly the oldest context off `outQueue`, clears that context's
liveness timer if armed, and writes one response carrying the whole batch
in its original enqueue order (re-arming the idle timer only when no slot
remains); no payload is split off, reordered, or duplicated. -/
theorem C4_batched_single_response (s : Session) (c : Ctx) (rest : List Ctx)
    (h1 : s.outQueue = c :: rest) (h2 : s.stanzaQueue ≠ []) :
    (workOutQueue s).1.stanzaQueue = [] ∧
    (workOutQueue s).1.outQueue = rest ∧
    (workOutQueue s).2 =
      timerClearEvs c ++
      Ev.respond c.res false s.stanzaQueue ::
      (if rest.length < 1 then [Ev.setConnTimer s.nextTimerId] else []) := by
  obtain ⟨a, l, hs⟩ := List.exists_cons_of_ne_nil h2
  unfold workOutQueue maySetConnectionTimeout
  rw [h1, hs]
  cases rest <;> simp

/-- C4 witness: the batching theorem applied to a session holding two
slots and two queued payloads. -/
theorem C4_witness :
    batchState.outQueue = heldCtx :: [firstCtx] ∧
    batchState.stanzaQueue ≠ [] ∧
    ((workOutQueue batchState).1.stanzaQueue = [] ∧
     (workOutQueue batchState).1.outQueue = [firstCtx] ∧
     (workOutQueue batchState).2 =
       timerClearEvs heldCtx ++
       Ev.respond heldCtx.res false batchState.stanzaQueue ::
       (if [firstCtx].length < 1 then [Ev.setConnTimer batchState.nextTimerId]
        else [])) :=
  ⟨rfl, by decide,
   C4_batched_single_response batchState heldCtx [firstCtx] rfl (by decide)⟩

/-- C2: when the request processed for `nextRid` is terminate-typed,
every context then in `outQueue` — the terminate request itself included,
since it was just pushed — has its response written with a
terminate-flagged empty body and its armed timer cleared, `outQueue`
becomes empty, and the session emits `end` followed by `close`. -/
theorem C2_terminate_flushes_all_slots (s : Session) (c : Ctx)
    (h1 : qLookup s.inQueue s.nextRid = some c)
    (h2 : c.typeAttr = some "terminate") :
    (workInQueue s).1.outQueue = [] ∧
    (workInQueue s).2 =
      processEvents c ++
      (s.outQueue ++ [c]).flatMap
        (fun o => timerClearEvs o ++ [Ev.respond o.res true []]) ++
      [Ev.sEnd, Ev.close] := by
  unfold workInQueue
  rw [workInQueueFuel, h1]
  simp [h2]

/-- C2 witness: the terminate-flush theorem applied to a session holding
one earlier slot plus the terminate request. -/
theorem C2_witness :
    qLookup termState.inQueue termState.nextRid = some termCtx ∧
    termCtx.typeAttr = some "terminate" ∧
    ((workInQueue termState).1.outQueue = [] ∧
     (workInQueue termState).2 =
       processEvents termCtx ++
       (termState.outQueue ++ [termCtx]).flatMap
         (fun o => timerClearEvs o ++ [Ev.respond o.res true []]) ++
       [Ev.sEnd, Ev.close]) :=
  ⟨by decide, rfl, C2_terminate_flushes_all_slots termState termCtx (by decide) rfl⟩

/-- C9: whenever the request processed for `nextRid` has its restart flag
set (`xmpp:restart == "true"`), a fresh synthetic stream-open `data` event
is emitted downstream, whatever the session's position or queues. -/
theorem C9_restart_emits_stream_open (s : Session) (c : Ctx)
    (h1 : qLookup s.inQueue s.nextRid = some c)
    (h2 : c.restart = some "true") :
    Ev.data (streamRestartString c.toAttr c.xmppv) ∈ (workInQueue s).2 := by
  have hmem : Ev.data (streamRestartString c.toAttr c.xmppv) ∈ processEvents c := by
    simp [processEvents, h2]
  unfold workInQueue
  rw [workInQueueFuel, h1]
  dsimp only
  split
  · exact List.mem_append_left _ (List.mem_append_left _ hmem)
  · exact List.mem_append_left _ (List.mem_append_left _ hmem)

/-- C9 witness: the restart theorem applied to a concrete restart
request. -/
theorem C9_witness :
    qLookup restartState.inQueue restartState.nextRid = some restartCtx ∧
    restartCtx.restart = some "true" ∧
    Ev.data (streamRestartString restartCtx.toAttr restartCtx.xmppv) ∈
      (workInQueue restartState).2 :=
  ⟨by decide, rfl,
   C9_restart_emits_stream_open restartState restartCtx (by decide) rfl⟩

/-- C1: three follow-up requests with consecutive sequence numbers `n`,
`n+1`, `n+2`, each carrying one payload, arriving (each with its scheduled
ordering pass) in any of the six orders at a session waiting for `n`,
yield downstream `data` events for the payloads in ascending
sequence-number order; and requests whose sequence numbers all exceed
`nextRid` produce no downstream events at all until every earlier number
has been processed. -/
theorem C1_ascending_delivery_and_buffering (n : Nat) (p1 p2 p3 : String) :
    (dataOf (submitAll (readySession n)
      [mkReq n p1 1, mkReq (n+1) p2 2, mkReq (n+2) p3 3]).2 = [p1, p2, p3]) ∧
    (dataOf (submitAll (readySession n)
      [mkReq n p1 1, mkReq (n+2) p3 3, mkReq (n+1) p2 2]).2 = [p1, p2, p3]) ∧
    (dataOf (submitAll (readySession n)
      [mkReq (n+1) p2 2, mkReq n p1 1, mkReq (n+2) p3 3]).2 = [p1, p2, p3]) ∧
    (dataOf (submitAll (readySession n)
      [mkReq (n+1) p2 2, mkReq (n+2) p3 3, mkReq n p1 1]).2 = [p1, p2, p3]) ∧
    (dataOf (submitAll (readySession n)
      [mkReq (n+2) p3 3, mkReq n p1 1, mkReq (n+1) p2 2]).2 = [p1, p2, p3]) ∧
    (dataOf (submitAll (readySession n)
      [mkReq (n+2) p3 3, mkReq (n+1) p2 2, mkReq n p1 1]).2 = [p1, p2, p3]) ∧
    (downstream (submitAll (readySession n) [mkReq (n+2) p3 3]).2 = []) ∧
    (downstream (submitAll (readySession n)
      [mkReq (n+2) p3 3, mkReq (n+1) p2 2]).2 = []) := by
  refine ⟨?_, ?_, ?_, ?_, ?_, ?_, ?_, ?_⟩ <;>
  simp [submitAll, submit, handleHTTP, admitCtx, workInQueue, workInQueueFuel,
    workOutQueue, maySetConnectionTimeout, qLookup, qSet, qErase, processEvents,
    mkReq, readySession, dataOf, downstream, isDownstream, falsy, joinChildren]

/-- C6 counterexample: the session-creating request is stored by the
constructor without any liveness timer — after its ordering pass it sits
in `outQueue` with `timer = none` and the whole trace contains no
`setTimer` event — so, contrary to the claim, the very first slot has no
wait-seconds timer that could expire and produce an empty acknowledgment. -/
theorem C6_counterexample :
    (workInQueue (newSession firstCtx none none).1).1.outQueue = [firstCtx] ∧
    firstCtx.timer = none ∧
    (((newSession firstCtx none none).2 ++
      (workInQueue (newSession firstCtx none none).1).2).all
        (fun e => !isSetTimer e)) = true := by
  decide

/-- C6 (amended): every request admitted through `handleHTTP` is stored
with a fresh `wait`-seconds liveness timer, and when such a timer expires
while its context is still held — in `inQueue`, or found in `outQueue` —
`onReqTimeout` completes that context with an empty acknowledgment
response; only the session-creating request's slot, stored by the
constructor, receives no liveness timer. -/
theorem C6_wait_liveness_amended :
    (∀ s c, qLookup s.inQueue c.rid = none → ¬ c.rid < s.nextRid →
      qLookup (handleHTTP s c).1.inQueue c.rid =
        some { c with timer := some s.nextTimerId } ∧
      Ev.setTimer s.nextTimerId c.rid ∈ (handleHTTP s c).2) ∧
    (∀ s rid c, qLookup s.inQueue rid = some c →
      onReqTimeout s rid =
        ({ s with inQueue := qErase s.inQueue rid },
         [Ev.respond c.res false []])) ∧
    (∀ s rid, qLookup s.inQueue rid = none →
      ∀ h : s.outQueue.findIdx (fun c => c.rid == rid) < s.outQueue.length,
      onReqTimeout s rid =
        ({ s with outQueue :=
            s.outQueue.eraseIdx (s.outQueue.findIdx (fun c => c.rid == rid)) },
         [Ev.respond (s.outQueue.get
            ⟨s.outQueue.findIdx (fun c => c.rid == rid), h⟩).res false []])) := by
  refine ⟨?_, ?_, ?_⟩
  · intro s c h1 h2
    unfold handleHTTP admitCtx
    rw [h1, if_neg h2]
    cases hct : s.connectionTimeout <;> simp [qLookup_qSet_self]
  · intro s rid c h
    unfold onReqTimeout
    rw [h]
  · intro s rid h1 h
    unfold onReqTimeout
    rw [h1]
    simp only [h, dif_pos]

/-- C6 witness: the amended liveness theorem applied at concrete inputs
for each of its three parts. -/
theorem C6_witness :
    (qLookup dupState.inQueue (mkReq 9 "p" 20).rid = none ∧
     ¬ (mkReq 9 "p" 20).rid < dupState.nextRid ∧
     (qLookup (handleHTTP dupState (mkReq 9 "p" 20)).1.inQueue
        (mkReq 9 "p" 20).rid =
        some { mkReq 9 "p" 20 with timer := some dupState.nextTimerId } ∧
      Ev.setTimer dupState.nextTimerId (mkReq 9 "p" 20).rid ∈
        (handleHTTP dupState (mkReq 9 "p" 20)).2)) ∧
    (qLookup dupState.inQueue 5 = some oldDup ∧
     onReqTimeout dupState 5 =
       ({ dupState with inQueue := qErase dupState.inQueue 5 },
        [Ev.respond oldDup.res false []])) ∧
    (qLookup heldState.inQueue 2 = none ∧
     onReqTimeout heldState 2 =
       ({ heldState with outQueue :=
           heldState.outQueue.eraseIdx (heldState.outQueue.findIdx (fun c => c.rid == 2)) },
        [Ev.respond (heldState.outQueue.get
           ⟨heldState.outQueue.findIdx (fun c => c.rid == 2), by decide⟩).res
           false []])) :=
  ⟨⟨by decide, by decide,
    C6_wait_liveness_amended.1 dupState (mkReq 9 "p" 20) (by decide) (by decide)⟩,
   ⟨by decide,
    C6_wait_liveness_amended.2.1 dupState 5 oldDup (by decide)⟩,
   ⟨by decide,
    C6_wait_liveness_amended.2.2 heldState 2 (by decide) (by decide)⟩⟩

/-- C7 counterexample: superseding a duplicate sequence number consumes
the old context (it is written the 403 conflict response) without clearing
its armed liveness timer (id 7): no `clearTimer 7` appears in the trace,
and when that stale timer later fires, `onReqTimeout` retires the NEW
context stored under the same rid (response sink 11). -/
theorem C7_counterexample :
    Ev.clearTimer 7 ∉ (handleHTTP dupState newDup).2 ∧
    Ev.httpError oldDup.res 403 "Request replaced by same RID" ∈
      (handleHTTP dupState newDup).2 ∧
    (onReqTimeout (handleHTTP dupState newDup).1 5).2 =
      [Ev.respond newDup.res false []] := by
  decide

/-- C7 (amended): a context's liveness timer is cleared when the normal
outbound drain delivers it and when the terminate flush retires it (and
the timeout path consumes its own timer on firing); but supersession by a
duplicate sequence number clears nothing — the superseded context's timer
stays armed and may later fire against whatever context then occupies that
sequence number. -/
theorem C7_timer_clearing_amended :
    (∀ s c rest t, s.outQueue = c :: rest → s.stanzaQueue ≠ [] →
      c.timer = some t → Ev.clearTimer t ∈ (workOutQueue s).2) ∧
    (∀ s c o t, qLookup s.inQueue s.nextRid = some c →
      c.typeAttr = some "terminate" → o ∈ s.outQueue → o.timer = some t →
      Ev.clearTimer t ∈ (workInQueue s).2) ∧
    (∀ s c cOld, qLookup s.inQueue c.rid = some cOld →
      ∀ t, Ev.clearTimer t ∉ (handleHTTP s c).2) := by
  refine ⟨?_, ?_, ?_⟩
  · intro s c rest t h1 h2 ht
    obtain ⟨a, l, hs⟩ := List.exists_cons_of_ne_nil h2
    unfold workOutQueue
    rw [h1, hs]
    simp [timerClearEvs, ht]
  · intro s c o t h1 h2 ho ht
    unfold workInQueue
    rw [workInQueueFuel, h1]
    simp only [h2, bne_self_eq_false, Bool.false_eq_true, if_false]
    refine List.mem_append_left _ (List.mem_append_right _ ?_)
    rw [List.mem_flatMap]
    exact ⟨o, List.mem_append_left _ ho, by simp [timerClearEvs, ht]⟩
  · intro s c cOld h t
    unfold handleHTTP admitCtx
    rw [h]
    cases hct : s.connectionTimeout <;> simp

/-- C7 witness: the amended timer-clearing theorem applied at concrete
inputs for each of its three parts. -/
theorem C7_witness :
    (batchState.outQueue = heldCtx :: [firstCtx] ∧
     batchState.stanzaQueue ≠ [] ∧ heldCtx.timer = some 4 ∧
     Ev.clearTimer 4 ∈ (workOutQueue batchState).2) ∧
    (qLookup termState.inQueue termState.nextRid = some termCtx ∧
     termCtx.typeAttr = some "terminate" ∧ heldCtx ∈ termState.outQueue ∧
     heldCtx.timer = some 4 ∧
     Ev.clearTimer 4 ∈ (workInQueue termState).2) ∧
    (qLookup dupState.inQueue newDup.rid = some oldDup ∧
     Ev.clearTimer 7 ∉ (handleHTTP dupState newDup).2) :=
  ⟨⟨rfl, by decide, rfl,
    C7_timer_clearing_amended.1 batchState heldCtx [firstCtx] 4 rfl (by decide) rfl⟩,
   ⟨by decide, rfl, by decide, rfl,
    C7_timer_clearing_amended.2.1 termState termCtx heldCtx 4 (by decide) rfl
      (by decide) rfl⟩,
   ⟨by decide,
    C7_timer_clearing_amended.2.2 dupState newDup oldDup (by decide) 7⟩⟩

/-- C8 counterexample: `onReqTimeout` empties `outQueue` (the last held
slot times out) yet arms no idle timer — no `setConnTimer` event is
emitted and `connectionTimeout` stays unarmed — refuting "after every
operation that leaves `outQueue` empty, the 60-second session idle timer
is armed". -/
theorem C8_counterexample :
    (onReqTimeout heldState 2).1.outQueue = [] ∧
    (onReqTimeout heldState 2).1.connectionTimeout = none ∧
    ((onReqTimeout heldState 2).2.all (fun e => !isSetConnTimer e)) = true := by
  decide

/-- C8 (amended): the 60-second idle timer is armed by
`maySetConnectionTimeout` whenever `outQueue` is empty — at construction
and after the outbound drain delivers the last held slot — and its expiry
emits `error` followed by `close`, each exactly once; but the
liveness-timeout path never re-arms it, even when it removes the last
held slot. -/
theorem C8_idle_timer_amended :
    (∀ s, s.outQueue = [] →
      (maySetConnectionTimeout s).1.connectionTimeout = some s.nextTimerId ∧
      (maySetConnectionTimeout s).2 = [Ev.setConnTimer s.nextTimerId]) ∧
    (∀ s c, s.outQueue = [c] → s.stanzaQueue ≠ [] →
      Ev.setConnTimer s.nextTimerId ∈ (workOutQueue s).2) ∧
    (∀ s, onConnTimeout s = (s, [Ev.error "Session timeout", Ev.close])) ∧
    (∀ s rid t, Ev.setConnTimer t ∉ (onReqTimeout s rid).2) := by
  refine ⟨?_, ?_, ?_, ?_⟩
  · intro s h
    unfold maySetConnectionTimeout
    rw [h]
    exact ⟨rfl, rfl⟩
  · intro s c h1 h2
    obtain ⟨a, l, hs⟩ := List.exists_cons_of_ne_nil h2
    unfold workOutQueue maySetConnectionTimeout
    rw [h1, hs]
    simp
  · intro s
    rfl
  · intro s rid t
    unfold onReqTimeout
    cases hq : qLookup s.inQueue rid
    · dsimp only
      split <;> simp
    · simp

/-- C8 witness: the amended idle-timer theorem applied at concrete inputs
for each of its four parts. -/
theorem C8_witness :
    ((readySession 4).outQueue = [] ∧
     ((maySetConnectionTimeout (readySession 4)).1.connectionTimeout =
        some (readySession 4).nextTimerId ∧
      (maySetConnectionTimeout (readySession 4)).2 =
        [Ev.setConnTimer (readySession 4).nextTimerId])) ∧
    (drainState.outQueue = [heldCtx] ∧ drainState.stanzaQueue ≠ [] ∧
     Ev.setConnTimer drainState.nextTimerId ∈ (workOutQueue drainState).2) ∧
    (onConnTimeout heldState =
      (heldState, [Ev.error "Session timeout", Ev.close])) ∧
    (Ev.setConnTimer 3 ∉ (onReqTimeout heldState 2).2) :=
  ⟨⟨rfl, C8_idle_timer_amended.1 (readySession 4) rfl⟩,
   ⟨rfl, by decide,
    C8_idle_timer_amended.2.1 drainState heldCtx rfl (by decide)⟩,
   C8_idle_timer_amended.2.2.1 heldState,
   C8_idle_timer_amended.2.2.2 heldState 2 3⟩
